import Mathlib

/-!
Shallow embedding of the facturacion-backend invoicing service
(server.js, middleware/auth.js) and proofs about its behaviour.

Modelling conventions:
- Mongo document ids are natural numbers; a collection is an association
  list from id to document, looked up first-match (findById) and written
  back in place (save).
- JS numbers are modelled as integers: the properties under study are
  exact sums, differences and comparisons, not rounding behaviour.
- Each Express handler is a function from its request data and the
  database state to an HTTP response (status code plus JSON body) and the
  database state it leaves behind.
- Dates (the fecha field, defaulted to Date.now) are real time and are
  not modelled.
-/

namespace Facturacion

/-- JSON-like values, the shape of the bodies produced by res.json. -/
inductive Json where
  | num (n : Int)
  | str (s : String)
  | arr (elems : List Json)
  | obj (fields : List (String × Json))

/-- An HTTP response: status code and JSON body, as produced by
res.status(c).json(b); res.json alone answers with status 200. -/
structure HttpResponse where
  status : Nat
  body : Json

/-- Error body of the shape produced by res.json with an error field. -/
def errJson (msg : String) : Json := .obj [("error", .str msg)]

/-- Producto document (server.js productoSchema): nombre, descripcion,
precio, cantidad; the schema declares a min-0 bound on cantidad, which
mongoose enforces through save-time validation. -/
structure Producto where
  nombre : String
  descripcion : String
  precio : Int
  cantidad : Int
  deriving DecidableEq, Repr

/-- The Producto collection as an association list from id to document. -/
abbrev Store := List (Nat × Producto)

/-- Producto.findById: first entry with the given id, if any. -/
def findProducto : Store → Nat → Option Producto
  | [], _ => none
  | (k, p) :: rest, id => if k = id then some p else findProducto rest id

/-- producto.save(): write the document back under its id, in place. -/
def saveProducto : Store → Nat → Producto → Store
  | [], _, _ => []
  | (k, p) :: rest, id, nuevo =>
    if k = id then (k, nuevo) :: saveProducto rest id nuevo
    else (k, p) :: saveProducto rest id nuevo

/-- One entry of req.body.detalles for POST /facturas: the caller
supplies productoId, cantidad and precio. -/
structure DetalleReq where
  productoId : Nat
  cantidad : Int
  precio : Int
  deriving DecidableEq, Repr

/-- The two 400 failures of the POST /facturas validation loop. -/
inductive FacturaError where
  | productoNoEncontrado (productoId : Nat)
  | stockInsuficiente (nombre : String)
  deriving DecidableEq, Repr

/-- The per-line loop of the POST /facturas handler (server.js lines
116-129): look the product up, fail 400 if missing, fail 400 if stock is
short, otherwise add precio times cantidad to the running total,
decrement the stock and save the product. On failure the handler
returns at once, so the error carries the store as it stands at the
failure point, stock decrements of earlier lines included. -/
def procesarDetalles : List DetalleReq → Store → Int →
    Except (FacturaError × Store) (Int × Store)
  | [], store, total => .ok (total, store)
  | d :: ds, store, total =>
    match findProducto store d.productoId with
    | none => .error (.productoNoEncontrado d.productoId, store)
    | some p =>
      if p.cantidad < d.cantidad then
        .error (.stockInsuficiente p.nombre, store)
      else
        procesarDetalles ds
          (saveProducto store d.productoId { p with cantidad := p.cantidad - d.cantidad })
          (total + p.precio * d.cantidad)

/-- Factura document: clienteId and total (fecha not modelled). -/
structure Factura where
  clienteId : Nat
  total : Int
  deriving DecidableEq, Repr

/-- DetalleFactura document: the persisted invoice line. -/
structure DetalleFactura where
  facturaId : Nat
  productoId : Nat
  cantidad : Int
  precio : Int
  deriving DecidableEq, Repr

/-- The whole database: the three collections the invoice workflow
touches, plus the id the next saved Factura receives. -/
structure DBState where
  productos : Store
  facturas : List (Nat × Factura)
  detallesFactura : List DetalleFactura
  nextFacturaId : Nat
  deriving DecidableEq, Repr

/-- Error message for a missing product (server.js line 120). -/
def msgProductoNoEncontrado (id : Nat) : String :=
  "Producto no encontrado con ID " ++ toString id

/-- Error message for short stock (server.js line 123). -/
def msgStockInsuficiente (nombre : String) : String :=
  "No hay suficiente stock para el producto " ++ nombre

/-- Message carried by each FacturaError. -/
def msgFactura : FacturaError → String
  | .productoNoEncontrado id => msgProductoNoEncontrado id
  | .stockInsuficiente nombre => msgStockInsuficiente nombre

/-- res.json(nuevaFactura): the body serializes the Factura document
alone, its generated id and its fields (fecha omitted, not modelled). -/
def facturaJson (id : Nat) (f : Factura) : Json :=
  .obj [("_id", .num (Int.ofNat id)),
        ("clienteId", .num (Int.ofNat f.clienteId)),
        ("total", .num f.total)]

/-- The DetalleFactura built from one request line (server.js lines
135-140): facturaId from the new Factura, the rest copied from the
caller's line, precio included. -/
def lineaDe (facturaId : Nat) (d : DetalleReq) : DetalleFactura :=
  { facturaId := facturaId, productoId := d.productoId,
    cantidad := d.cantidad, precio := d.precio }

/-- POST /facturas handler (server.js lines 111-147): run the
validation/decrement loop; on failure answer 400 with the loop's store
(no rollback); on success save a Factura with the computed total, save
one DetalleFactura per line, and answer res.json(nuevaFactura). -/
def postFacturas (clienteId : Nat) (detalles : List DetalleReq) (st : DBState) :
    HttpResponse × DBState :=
  match procesarDetalles detalles st.productos 0 with
  | .error (e, store) =>
    ({ status := 400, body := errJson (msgFactura e) }, { st with productos := store })
  | .ok (total, store) =>
    let fid := st.nextFacturaId
    let f : Factura := { clienteId := clienteId, total := total }
    ({ status := 200, body := facturaJson fid f },
     { productos := store,
       facturas := st.facturas ++ [(fid, f)],
       detallesFactura := st.detallesFactura ++ detalles.map (lineaDe fid),
       nextFacturaId := fid + 1 })

/-- Stores a concurrent reader can observe after each producto.save()
of the validation loop (every await of a storage write is a suspension
point at which other requests run). -/
def procesarDetallesTrace : List DetalleReq → Store → List Store
  | [], _ => []
  | d :: ds, store =>
    match findProducto store d.productoId with
    | none => []
    | some p =>
      if p.cantidad < d.cantidad then []
      else
        let store1 := saveProducto store d.productoId { p with cantidad := p.cantidad - d.cantidad }
        store1 :: procesarDetallesTrace ds store1

/-- Database states visible after each DetalleFactura save. -/
def guardarLineas (st : DBState) : List DetalleFactura → List DBState
  | [] => []
  | l :: ls =>
    let st1 := { st with detallesFactura := st.detallesFactura ++ [l] }
    st1 :: guardarLineas st1 ls

/-- Intermediate database states of POST /facturas at its storage-write
suspension points: one after each producto.save(), one after the
Factura save, one after each DetalleFactura save. -/
def postFacturasTrace (clienteId : Nat) (detalles : List DetalleReq) (st : DBState) :
    List DBState :=
  let stockStates := (procesarDetallesTrace detalles st.productos).map
    (fun s => { st with productos := s })
  match procesarDetalles detalles st.productos 0 with
  | .error _ => stockStates
  | .ok (total, store) =>
    let fid := st.nextFacturaId
    let f : Factura := { clienteId := clienteId, total := total }
    let afterFactura : DBState :=
      { productos := store, facturas := st.facturas ++ [(fid, f)],
        detallesFactura := st.detallesFactura, nextFacturaId := fid + 1 }
    stockStates ++ afterFactura :: guardarLineas afterFactura (detalles.map (lineaDe fid))

/-- Bearer credential as jwt.verify sees it: either it verifies to a
payload carrying userId and role, or verification fails. -/
inductive Token where
  | valid (userId : Nat) (role : String)
  | invalid
  deriving DecidableEq, Repr

/-- The req.user payload attached by authenticateToken. -/
structure Usuario where
  userId : Nat
  role : String
  deriving DecidableEq, Repr

/-- middleware/auth.js authenticateToken: no token answers 401; a token
that fails jwt.verify answers 403 Token inválido; a verified token
attaches the payload and calls next(). -/
def authenticateToken : Option Token → Except HttpResponse Usuario
  | none => .error { status := 401, body := errJson "No se proporcionó token" }
  | some .invalid => .error { status := 403, body := errJson "Token inválido" }
  | some (.valid uid role) => .ok { userId := uid, role := role }

/-- middleware/auth.js authorizeRoles: answers 403 when the user's role
is not in the allowed list; none means next() was called. -/
def authorizeRoles (roles : List String) (u : Usuario) : Option HttpResponse :=
  if u.role ∈ roles then none
  else some { status := 403, body := errJson "No autorizado" }

/-- Allowed roles on POST /productos (server.js line 78). -/
def postProductosRoles : List String := ["gestionador", "admin"]

/-- The middleware chain in front of the POST /productos handler:
authenticateToken then authorizeRoles; none means the request reached
the handler. -/
def puertaProductosPost (tok : Option Token) : Option HttpResponse :=
  match authenticateToken tok with
  | .error resp => some resp
  | .ok u => authorizeRoles postProductosRoles u

/-- POST /productos handler body: new Producto(req.body).save(). save
runs the schema validators, so the min-0 bound on cantidad rejects a
negative quantity; the catch turns that validation error into a 500. -/
def crearProducto (body : Producto) (store : Store) (nextId : Nat) :
    Except HttpResponse (Producto × Store) :=
  if body.cantidad < 0 then
    .error { status := 500, body := errJson "Producto validation failed" }
  else
    .ok (body, store ++ [(nextId, body)])

/-- Partial update body for PUT /productos/:id. -/
structure ProductoUpdate where
  nombre : Option String := none
  descripcion : Option String := none
  precio : Option Int := none
  cantidad : Option Int := none
  deriving DecidableEq, Repr

/-- Field-wise application of an update document. -/
def aplicarUpdate (p : Producto) (u : ProductoUpdate) : Producto :=
  { nombre := u.nombre.getD p.nombre,
    descripcion := u.descripcion.getD p.descripcion,
    precio := u.precio.getD p.precio,
    cantidad := u.cantidad.getD p.cantidad }

/-- PUT /productos/:id handler body: Producto.findByIdAndUpdate(id,
req.body, new true). Mongoose update queries do not run schema
validators unless runValidators is set, and the source does not set it,
so the min-0 bound on cantidad is not applied on this path. -/
def actualizarProducto (store : Store) (id : Nat) (u : ProductoUpdate) :
    Option Producto × Store :=
  match findProducto store id with
  | none => (none, store)
  | some p =>
    let p1 := aplicarUpdate p u
    (some p1, saveProducto store id p1)

/-- Quantity on hand of a product, when it exists. -/
def cantidadDe (store : Store) (id : Nat) : Option Int :=
  (findProducto store id).map (fun p => p.cantidad)

/-- Stored unit price of a product in a store (0 when absent; only used
where the product is known to exist). -/
def precioInicial (store : Store) (id : Nat) : Int :=
  ((findProducto store id).map (fun p => p.precio)).getD 0

/-- Combined quantity requested for one product across all lines. -/
def sumReq : List DetalleReq → Nat → Int
  | [], _ => 0
  | d :: ds, pid => (if d.productoId = pid then d.cantidad else 0) + sumReq ds pid

/-- Serialization of a persisted invoice line, field for field. -/
def detalleJson (l : DetalleFactura) : Json :=
  .obj [("facturaId", .num (Int.ofNat l.facturaId)),
        ("productoId", .num (Int.ofNat l.productoId)),
        ("cantidad", .num l.cantidad),
        ("precio", .num l.precio)]

/-- Fields of a JSON object (empty for the other value shapes). -/
def camposDe : Json → List (String × Json)
  | .obj fields => fields
  | _ => []

/-- Modelled from the spec: the contract of createInvoice returns the
committed Invoice together with its InvoiceLines. A response carries a
list of lines when some field of its JSON body is the serialized array
of those lines (as GET /facturas/:id does with its detalles field). -/
def contieneDetalles (resp : HttpResponse) (lineas : List DetalleFactura) : Prop :=
  ∃ kv ∈ camposDe resp.body, kv.2 = Json.arr (lineas.map detalleJson)

/-- Example database: one product A with price 10 and stock 5. -/
def stEj1 : DBState :=
  { productos := [(1, { nombre := "A", descripcion := "", precio := 10, cantidad := 5 })],
    facturas := [], detallesFactura := [], nextFacturaId := 0 }

/-- Example database: product P1 (price 10, stock 5) and product P2
(price 4, stock 1). -/
def stEj2 : DBState :=
  { productos := [(1, { nombre := "P1", descripcion := "", precio := 10, cantidad := 5 }),
                  (2, { nombre := "P2", descripcion := "", precio := 4, cantidad := 1 })],
    facturas := [], detallesFactura := [], nextFacturaId := 0 }

/-- Lookup after a save: the saved id now holds the new document (when
it existed), every other id is untouched. -/
theorem findProducto_saveProducto (store : Store) (id pid : Nat) (nuevo : Producto) :
    findProducto (saveProducto store id nuevo) pid =
      if pid = id then (findProducto store id).map (fun _ => nuevo)
      else findProducto store pid := by
  induction store with
  | nil => by_cases h : pid = id <;> simp [saveProducto, findProducto, h]
  | cons kv rest ih =>
    obtain ⟨k, p⟩ := kv
    by_cases hk : k = id <;> by_cases hp : k = pid <;> by_cases hpid : pid = id <;>
      simp_all [saveProducto, findProducto]

/-- A successful lookup result is an entry of the store. -/
theorem findProducto_mem (store : Store) (id : Nat) (p : Producto)
    (h : findProducto store id = some p) : (id, p) ∈ store := by
  induction store with
  | nil => simp [findProducto] at h
  | cons kv rest ih =>
    obtain ⟨k, q⟩ := kv
    simp only [findProducto] at h
    by_cases hk : k = id
    · rw [if_pos hk] at h
      cases h
      subst hk
      exact List.mem_cons_self _ _
    · rw [if_neg hk] at h
      exact List.mem_cons_of_mem _ (ih h)

/-- Saving a copy of an existing product with a new cantidad changes no
stored price. -/
theorem precioInicial_save (store : Store) (id : Nat) (p : Producto) (c : Int)
    (hf : findProducto store id = some p) (pid : Nat) :
    precioInicial (saveProducto store id { p with cantidad := c }) pid =
      precioInicial store pid := by
  unfold precioInicial
  rw [findProducto_saveProducto]
  by_cases h : pid = id <;> simp [h, hf]

/-- Characterization of a successful run of the validation/decrement
loop: the computed total adds, to the running total, the stored unit
price at loop entry times the requested cantidad, summed over the
lines; and every product ends with its quantity decremented by the
combined requested amount (unreferenced products by 0). -/
theorem procesarDetalles_ok (detalles : List DetalleReq) :
    ∀ (store : Store) (t0 total : Int) (store1 : Store),
      procesarDetalles detalles store t0 = .ok (total, store1) →
      total = t0 + (detalles.map (fun d => precioInicial store d.productoId * d.cantidad)).sum ∧
      ∀ pid, findProducto store1 pid =
        (findProducto store pid).map
          (fun p => { p with cantidad := p.cantidad - sumReq detalles pid }) := by
  induction detalles with
  | nil =>
    intro store t0 total store1 h
    simp only [procesarDetalles, Except.ok.injEq, Prod.mk.injEq] at h
    obtain ⟨rfl, rfl⟩ := h
    refine ⟨by simp, fun pid => ?_⟩
    cases findProducto store pid <;> simp [sumReq]
  | cons d ds ih =>
    intro store t0 total store1 h
    simp only [procesarDetalles] at h
    split at h
    · exact absurd h (by simp)
    · rename_i p hf
      split at h
      · exact absurd h (by simp)
      · rename_i hlt
        obtain ⟨htot, hsto⟩ := ih _ _ _ _ h
        constructor
        · rw [htot]
          have hpre : (ds.map fun d2 => precioInicial
              (saveProducto store d.productoId { p with cantidad := p.cantidad - d.cantidad })
              d2.productoId * d2.cantidad) =
              ds.map fun d2 => precioInicial store d2.productoId * d2.cantidad := by
            apply List.map_congr_left
            intro d2 _
            rw [precioInicial_save store d.productoId p _ hf]
          rw [hpre]
          have hp1 : precioInicial store d.productoId = p.precio := by
            simp [precioInicial, hf]
          simp only [List.map_cons, List.sum_cons, hp1]
          ring
        · intro pid
          rw [hsto pid, findProducto_saveProducto]
          by_cases hpid : pid = d.productoId
          · subst hpid
            rw [if_pos rfl, hf]
            simp only [Option.map_some', Option.some.injEq, sumReq, if_pos rfl,
              Producto.mk.injEq, if_true]
            exact ⟨trivial, trivial, trivial, by ring⟩
          · rw [if_neg hpid]
            have hpid2 : ¬d.productoId = pid := fun hh => hpid hh.symm
            have : sumReq (d :: ds) pid = sumReq ds pid := by
              simp [sumReq, hpid2]
            rw [this]

/-- Unfolding of the loop on a line whose product is found. -/
theorem procesarDetalles_cons_some (d : DetalleReq) (ds : List DetalleReq)
    (store : Store) (t : Int) (p : Producto)
    (hf : findProducto store d.productoId = some p) :
    procesarDetalles (d :: ds) store t =
      if p.cantidad < d.cantidad then
        .error (.stockInsuficiente p.nombre, store)
      else
        procesarDetalles ds
          (saveProducto store d.productoId { p with cantidad := p.cantidad - d.cantidad })
          (t + p.precio * d.cantidad) := by
  simp only [procesarDetalles, hf]

/-- Every entry of a store after a save is either the saved document or
an entry of the original store. -/
theorem mem_saveProducto (store : Store) (id : Nat) (nuevo : Producto)
    (kv : Nat × Producto) (h : kv ∈ saveProducto store id nuevo) :
    kv.2 = nuevo ∨ kv ∈ store := by
  induction store with
  | nil => simp [saveProducto] at h
  | cons kv0 rest ih =>
    obtain ⟨k, p⟩ := kv0
    simp only [saveProducto] at h
    by_cases hk : k = id
    · rw [if_pos hk] at h
      rcases List.mem_cons.mp h with h1 | h1
      · left; rw [h1]
      · rcases ih h1 with h2 | h2
        · exact Or.inl h2
        · exact Or.inr (List.mem_cons_of_mem _ h2)
    · rw [if_neg hk] at h
      rcases List.mem_cons.mp h with h1 | h1
      · exact Or.inr (h1 ▸ List.mem_cons_self _ _)
      · rcases ih h1 with h2 | h2
        · exact Or.inl h2
        · exact Or.inr (List.mem_cons_of_mem _ h2)

/-- C1: when every line of a POST /facturas request finds its product
and passes the stock check (the loop succeeds), the handler persists a
Factura whose total is the sum over the lines of the product's stored
unit price at validation time multiplied by the requested cantidad,
answers 200 with that Factura, and each product's stock ends decremented
by exactly the combined requested amount (unreferenced products by 0). -/
theorem postFacturas_exito (clienteId : Nat) (detalles : List DetalleReq)
    (st : DBState) (total : Int) (store : Store)
    (h : procesarDetalles detalles st.productos 0 = .ok (total, store)) :
    postFacturas clienteId detalles st =
      ({ status := 200,
         body := facturaJson st.nextFacturaId { clienteId := clienteId, total := total } },
       { productos := store,
         facturas := st.facturas ++ [(st.nextFacturaId, { clienteId := clienteId, total := total })],
         detallesFactura := st.detallesFactura ++ detalles.map (lineaDe st.nextFacturaId),
         nextFacturaId := st.nextFacturaId + 1 }) ∧
    total = (detalles.map (fun d => precioInicial st.productos d.productoId * d.cantidad)).sum ∧
    ∀ pid, cantidadDe store pid =
      (cantidadDe st.productos pid).map (fun c => c - sumReq detalles pid) := by
  obtain ⟨htot, hsto⟩ := procesarDetalles_ok detalles st.productos 0 total store h
  refine ⟨by simp only [postFacturas, h], by simpa using htot, fun pid => ?_⟩
  rw [cantidadDe, hsto pid, cantidadDe]
  cases findProducto st.productos pid <;> simp

/-- Witness for C1: a request of 3 units of product 1 against stEj1
(price 10, stock 5) succeeds with total 30 and leaves stock 2. -/
theorem postFacturas_exito_witness :
    (30 : Int) =
      (([⟨1, 3, 10⟩] : List DetalleReq).map
        (fun d => precioInicial stEj1.productos d.productoId * d.cantidad)).sum ∧
    cantidadDe [(1, ({ nombre := "A", descripcion := "", precio := 10, cantidad := 2 } : Producto))] 1 =
      (cantidadDe stEj1.productos 1).map (fun c => c - sumReq [⟨1, 3, 10⟩] 1) :=
  ⟨(postFacturas_exito 7 [⟨1, 3, 10⟩] stEj1 30
      [(1, { nombre := "A", descripcion := "", precio := 10, cantidad := 2 })] rfl).2.1,
   (postFacturas_exito 7 [⟨1, 3, 10⟩] stEj1 30
      [(1, { nombre := "A", descripcion := "", precio := 10, cantidad := 2 })] rfl).2.2 1⟩

/-- C2: the request for 3 units of product 1 (stock 5) and then 2 units
of product 2 (stock 1) against stEj2 fails 400 with the insufficient
stock message, yet product 1 keeps the decrement of the line processed
before the failing one (stock 5 before the call, 2 after): the handler
performs no rollback, contrary to the claimed full rollback. -/
theorem postFacturas_stock_insuficiente_sin_rollback :
    (postFacturas 7 [⟨1, 3, 10⟩, ⟨2, 2, 4⟩] stEj2).1.status = 400 ∧
    (postFacturas 7 [⟨1, 3, 10⟩, ⟨2, 2, 4⟩] stEj2).1.body =
      errJson (msgStockInsuficiente "P2") ∧
    cantidadDe stEj2.productos 1 = some 5 ∧
    cantidadDe (postFacturas 7 [⟨1, 3, 10⟩, ⟨2, 2, 4⟩] stEj2).2.productos 1 = some 2 :=
  ⟨rfl, rfl, rfl, rfl⟩

/-- C3: the request for 3 units of product 1 and then 1 unit of the
nonexistent product 99 against stEj2 fails 400 with the product not
found message and creates no Factura and no DetalleFactura, yet product
1 keeps the decrement of the line processed before the failing one
(stock 5 before the call, 2 after): product quantities do change. -/
theorem postFacturas_producto_faltante_sin_rollback :
    (postFacturas 7 [⟨1, 3, 10⟩, ⟨99, 1, 0⟩] stEj2).1.status = 400 ∧
    (postFacturas 7 [⟨1, 3, 10⟩, ⟨99, 1, 0⟩] stEj2).1.body =
      errJson (msgProductoNoEncontrado 99) ∧
    (postFacturas 7 [⟨1, 3, 10⟩, ⟨99, 1, 0⟩] stEj2).2.facturas = [] ∧
    (postFacturas 7 [⟨1, 3, 10⟩, ⟨99, 1, 0⟩] stEj2).2.detallesFactura = [] ∧
    cantidadDe stEj2.productos 1 = some 5 ∧
    cantidadDe (postFacturas 7 [⟨1, 3, 10⟩, ⟨99, 1, 0⟩] stEj2).2.productos 1 = some 2 :=
  ⟨rfl, rfl, rfl, rfl, rfl, rfl⟩

/-- C4: the successful one-line run against stEj1 exposes, at the
suspension point right after the first producto.save(), a database
state in which the stock decrement is already visible (2 instead of 5)
while no Factura and no DetalleFactura exist yet, although the
completed run does create a Factura: the steps are not all-or-nothing
to a concurrent reader. -/
theorem postFacturasTrace_estado_intermedio :
    ∃ s ∈ postFacturasTrace 7 [⟨1, 3, 10⟩] stEj1,
      cantidadDe s.productos 1 = some 2 ∧
      cantidadDe stEj1.productos 1 = some 5 ∧
      s.facturas = [] ∧ s.detallesFactura = [] ∧
      (postFacturas 7 [⟨1, 3, 10⟩] stEj1).2.facturas ≠ [] := by
  refine ⟨{ productos := [(1, { nombre := "A", descripcion := "", precio := 10, cantidad := 2 })],
            facturas := [], detallesFactura := [], nextFacturaId := 0 },
          by decide, rfl, rfl, rfl, rfl, by decide⟩

/-- C5: a PUT /productos/:id update that sets cantidad to -3 on a
product with stock 5 is applied as-is (findByIdAndUpdate runs no
schema validators), leaving a stored quantity below zero: the
non-negativity invariant is not preserved by every mutating operation. -/
theorem actualizarProducto_cantidad_negativa :
    cantidadDe (actualizarProducto
        [(1, { nombre := "A", descripcion := "", precio := 10, cantidad := 5 })] 1
        { cantidad := some (-3) }).2 1 = some (-3) ∧
    ((-3 : Int) < 0) :=
  ⟨rfl, by decide⟩

/-- C6: a one-line request for product 1 (stored price 10) carrying the
caller-supplied precio 999 succeeds, and the persisted DetalleFactura
carries precio 999, the caller's price, not the stored price 10 used in
the total computation. -/
theorem postFacturas_precio_del_cliente :
    (postFacturas 7 [⟨1, 1, 999⟩] stEj1).1.status = 200 ∧
    (postFacturas 7 [⟨1, 1, 999⟩] stEj1).2.detallesFactura =
      [{ facturaId := 0, productoId := 1, cantidad := 1, precio := 999 }] ∧
    precioInicial stEj1.productos 1 = 10 ∧ ((999 : Int) ≠ 10) :=
  ⟨rfl, rfl, rfl, by decide⟩

/-- C7 counterexample: the successful one-line run against stEj1
persists one DetalleFactura, but no field of the response body carries
the serialized lines — the claim that createInvoice returns the
committed Invoice together with its InvoiceLines fails on this input. -/
theorem postFacturas_respuesta_sin_detalles :
    (postFacturas 7 [⟨1, 3, 10⟩] stEj1).2.detallesFactura = [⟨0, 1, 3, 10⟩] ∧
    ¬ contieneDetalles (postFacturas 7 [⟨1, 3, 10⟩] stEj1).1 [⟨0, 1, 3, 10⟩] := by
  refine ⟨rfl, ?_⟩
  rintro ⟨kv, hmem, hval⟩
  have hcampos : camposDe (postFacturas 7 [⟨1, 3, 10⟩] stEj1).1.body =
      [("_id", Json.num 0), ("clienteId", Json.num 7), ("total", Json.num 30)] := rfl
  rw [hcampos] at hmem
  simp only [List.mem_cons, List.not_mem_nil, or_false] at hmem
  rcases hmem with h | h | h <;> (rw [h] at hval; simp at hval)

/-- C7 amended: on success, POST /facturas answers 200 with the
committed Factura document alone; the lines are persisted but not part
of the response. -/
theorem postFacturas_respuesta_solo_factura (clienteId : Nat) (detalles : List DetalleReq)
    (st : DBState) (total : Int) (store : Store)
    (h : procesarDetalles detalles st.productos 0 = .ok (total, store)) :
    (postFacturas clienteId detalles st).1 =
      { status := 200,
        body := facturaJson st.nextFacturaId { clienteId := clienteId, total := total } } := by
  simp only [postFacturas, h]

/-- Witness for the amended C7 at the concrete one-line request. -/
theorem postFacturas_respuesta_solo_factura_witness :
    (procesarDetalles [⟨1, 3, 10⟩] stEj1.productos 0 =
      .ok (30, [(1, { nombre := "A", descripcion := "", precio := 10, cantidad := 2 })])) ∧
    (postFacturas 7 [⟨1, 3, 10⟩] stEj1).1 =
      { status := 200, body := facturaJson stEj1.nextFacturaId { clienteId := 7, total := 30 } } :=
  ⟨rfl, postFacturas_respuesta_solo_factura 7 [⟨1, 3, 10⟩] stEj1 30
    [(1, { nombre := "A", descripcion := "", precio := 10, cantidad := 2 })] rfl⟩

/-- C8 counterexample: a bearer token that fails verification is
answered with status 403 (Token inválido), not 401 as claimed. -/
theorem authenticateToken_invalido_no_401 :
    authenticateToken (some Token.invalid) =
      .error { status := 403, body := errJson "Token inválido" } ∧
    (403 : Nat) ≠ 401 :=
  ⟨rfl, by decide⟩

/-- C8 amended: a missing credential is answered 401, an invalid
credential 403, and a verified credential whose role is outside the
allowed list 403, each with a body of the error-message shape. -/
theorem auth_codigos (uid : Nat) (role : String) (roles : List String)
    (hrole : role ∉ roles) :
    authenticateToken none =
      .error { status := 401, body := errJson "No se proporcionó token" } ∧
    authenticateToken (some Token.invalid) =
      .error { status := 403, body := errJson "Token inválido" } ∧
    authorizeRoles roles { userId := uid, role := role } =
      some { status := 403, body := errJson "No autorizado" } := by
  refine ⟨rfl, rfl, ?_⟩
  unfold authorizeRoles
  rw [if_neg hrole]

/-- Witness for the amended C8 with the role facturador against the
allowed list of POST /productos. -/
theorem auth_codigos_witness :
    ("facturador" ∉ (["gestionador", "admin"] : List String)) ∧
    (authenticateToken none =
      .error { status := 401, body := errJson "No se proporcionó token" } ∧
     authenticateToken (some Token.invalid) =
      .error { status := 403, body := errJson "Token inválido" } ∧
     authorizeRoles ["gestionador", "admin"] { userId := 0, role := "facturador" } =
      some { status := 403, body := errJson "No autorizado" }) :=
  ⟨by decide, auth_codigos 0 "facturador" ["gestionador", "admin"] (by decide)⟩

/-- C9: through the middleware chain of POST /productos, a verified
principal with role facturador is denied with 403 No autorizado, while
roles gestionador and admin pass the gate (the request reaches the
handler). -/
theorem puertaProductosPost_roles (uid : Nat) :
    puertaProductosPost (some (Token.valid uid "facturador")) =
      some { status := 403, body := errJson "No autorizado" } ∧
    puertaProductosPost (some (Token.valid uid "gestionador")) = none ∧
    puertaProductosPost (some (Token.valid uid "admin")) = none :=
  ⟨rfl, rfl, rfl⟩

/-- C10: when every line's product exists, every stored quantity is
non-negative, and some product's combined requested quantity across the
lines exceeds its stock, the loop fails with the insufficient-stock
error: later lines are checked against the quantity already decremented
by earlier lines of the same call, so the request cannot oversell. -/
theorem procesarDetalles_sobreventa (detalles : List DetalleReq) :
    ∀ (store : Store) (t0 : Int),
      (∀ d ∈ detalles, (findProducto store d.productoId).isSome) →
      (∀ kv ∈ store, 0 ≤ kv.2.cantidad) →
      (∃ pid, (cantidadDe store pid).getD 0 < sumReq detalles pid) →
      ∃ nombre store1, procesarDetalles detalles store t0 =
        .error (.stockInsuficiente nombre, store1) := by
  induction detalles with
  | nil =>
    intro store t0 _ hnn hover
    exfalso
    obtain ⟨pid, hover⟩ := hover
    simp only [sumReq] at hover
    cases hfind : findProducto store pid with
    | none => rw [cantidadDe, hfind] at hover; simp at hover
    | some p =>
      have h0 : (0 : Int) ≤ p.cantidad := hnn (pid, p) (findProducto_mem store pid p hfind)
      rw [cantidadDe, hfind] at hover
      simp at hover
      omega
  | cons d ds ih =>
    intro store t0 hex hnn hover
    obtain ⟨pid, hover⟩ := hover
    have hds : (findProducto store d.productoId).isSome := hex d (List.mem_cons_self _ _)
    obtain ⟨p, hf⟩ := Option.isSome_iff_exists.mp hds
    rw [procesarDetalles_cons_some d ds store t0 p hf]
    by_cases hlt : p.cantidad < d.cantidad
    · exact ⟨p.nombre, store, by rw [if_pos hlt]⟩
    · rw [if_neg hlt]
      apply ih
      · intro d2 hd2
        rw [findProducto_saveProducto]
        by_cases hp2 : d2.productoId = d.productoId
        · rw [if_pos hp2, hf]; simp
        · rw [if_neg hp2]; exact hex d2 (List.mem_cons_of_mem _ hd2)
      · intro kv hkv
        rcases mem_saveProducto store d.productoId _ kv hkv with hnew | hold
        · rw [hnew]
          have h0 : (0 : Int) ≤ p.cantidad := hnn (d.productoId, p) (findProducto_mem store d.productoId p hf)
          simp only
          omega
        · exact hnn kv hold
      · refine ⟨pid, ?_⟩
        rw [cantidadDe, findProducto_saveProducto]
        by_cases hpd : pid = d.productoId
        · subst hpd
          rw [if_pos rfl, hf]
          have hsum : sumReq (d :: ds) d.productoId = d.cantidad + sumReq ds d.productoId := by
            simp [sumReq]
          rw [cantidadDe, hf, hsum] at hover
          simp only [Option.map_some', Option.getD_some] at hover ⊢
          omega
        · rw [if_neg hpd]
          have hpd2 : ¬d.productoId = pid := fun hh => hpd hh.symm
          simp only [sumReq, if_neg hpd2, zero_add] at hover
          rw [cantidadDe] at hover
          exact hover

/-- Witness for C10: two lines of 3 units each of product 1 against a
stock of 5 fail with the insufficient-stock error. -/
theorem procesarDetalles_sobreventa_witness :
    ∃ nombre store1,
      procesarDetalles [⟨1, 3, 10⟩, ⟨1, 3, 10⟩]
        [(1, { nombre := "A", descripcion := "", precio := 10, cantidad := 5 })] 0 =
      .error (.stockInsuficiente nombre, store1) :=
  procesarDetalles_sobreventa [⟨1, 3, 10⟩, ⟨1, 3, 10⟩]
    [(1, { nombre := "A", descripcion := "", precio := 10, cantidad := 5 })] 0
    (by decide) (by decide) ⟨1, by decide⟩

end Facturacion
